import Mathlib

/-!
Verification of the subscription/webhook reconciliation core of the
`jocely` backend (payment app: `payment/models.py`,
`backend/payment/views.py`).

Timestamps are modelled as natural numbers (seconds); `daySecs` is one
day.  Nullable columns and optional JSON payload fields are `Option`
values; Python's truthiness test on a timestamp field (`if obj.get(k):`)
is `tsField`, which maps both an absent field and the falsy timestamp 0
to `none`.  Database tables are lists of rows; a Django
`queryset.first()` is `List.find?` and `model.save()` / bulk `update`
are `dbSave` / `List.map` over the rows.
-/

namespace Jocely

/-- One day in seconds, the unit of `datetime.timedelta(days=1)`. -/
def daySecs : Nat := 86400

/-- Billing plan (`payment/models.py`, class `Plan`). -/
structure Plan where
  name : String
  amount : Nat
  interval : String
  interval_count : Nat
  trial_days : Nat
  active : Bool
  deriving Repr, DecidableEq

/-- `calculate_current_period_end` (`backend/payment/views.py`):
period end from the plan interval, starting at `start_date`. -/
def calculate_current_period_end (plan : Plan) (start_date : Nat) : Nat :=
  if plan.interval = "day" then
    start_date + plan.interval_count * daySecs
  else if plan.interval = "week" then
    start_date + plan.interval_count * 7 * daySecs
  else if plan.interval = "month" then
    start_date + 30 * plan.interval_count * daySecs
  else if plan.interval = "year" then
    start_date + 365 * plan.interval_count * daySecs
  else
    start_date + 30 * daySecs

/-- Subscription ledger row (`payment/models.py`, class `Subscription`). -/
structure Subscription where
  id : Nat
  user_id : Nat
  plan : Option Plan
  stripe_customer_id : Option String
  stripe_subscription_id : Option String
  status : String
  trial_end : Option Nat
  current_period_end : Option Nat
  auto_renew : Bool
  created_at : Nat
  deriving Repr, DecidableEq

/-- `Subscription.is_active`. -/
def Subscription.is_active (s : Subscription) : Bool :=
  s.status = "active"

/-- `Subscription.is_trial`: false when `trial_end` is null, else
status in {trialing, active} and `trial_end > now`. -/
def Subscription.is_trial (s : Subscription) (now : Nat) : Bool :=
  match s.trial_end with
  | none => false
  | some t => (s.status = "trialing" || s.status = "active") && decide (now < t)

/-- `Subscription.is_paid_active`. -/
def Subscription.is_paid_active (s : Subscription) : Bool :=
  s.status = "active"

/-- `Subscription.is_trialing`. -/
def Subscription.is_trialing (s : Subscription) : Bool :=
  s.status = "trialing"

/-- `Subscription.get_user_active_subscription`: first row of the user
with status active or trialing. -/
def get_user_active_subscription (subs : List Subscription) (uid : Nat) :
    Option Subscription :=
  subs.find? (fun s =>
    decide (s.user_id = uid ∧ (s.status = "active" ∨ s.status = "trialing")))

/-- User referral fields consumed by the payment app
(`referral_code`, `referred_by`, `is_unlimited`, `package_expiry`). -/
structure UserRec where
  id : Nat
  referral_code : String
  referred_by : String
  is_unlimited : Bool
  package_expiry : Option Nat
  deriving Repr, DecidableEq

/-- Python truthiness of an optional timestamp field: absent, null and
the timestamp 0 are all falsy. -/
def tsField : Option Nat → Option Nat
  | none => none
  | some t => if t = 0 then none else some t

/-- `model.save()` on a row-list table: replace the rows carrying the
saved row's key. -/
def dbSave {α : Type} (key : α → Nat) (l : List α) (b : α) : List α :=
  l.map (fun v => if key v = key b then b else v)

/-- Save a `Subscription` row by primary key. -/
def saveSub (subs : List Subscription) (b : Subscription) : List Subscription :=
  dbSave Subscription.id subs b

/-- Save a user row by primary key. -/
def saveUser (users : List UserRec) (b : UserRec) : List UserRec :=
  dbSave UserRec.id users b

/-- `User.objects.get(referral_code=code)` (first match or none). -/
def findUserByCode (users : List UserRec) (code : String) : Option UserRec :=
  users.find? (fun u => decide (u.referral_code = code))

/-- `process_referral_benefits(user, subscription)`
(`backend/payment/views.py`): when the purchaser has a `referred_by`
code that resolves, grant the referrer 30 days and the purchaser 7 days
of unlimited access past `base_time`; otherwise leave everything
unchanged. -/
def process_referral_benefits (users : List UserRec) (uid : Nat)
    (sub : Subscription) (now : Nat) : List UserRec :=
  match users.find? (fun u => decide (u.id = uid)) with
  | none => users
  | some user =>
    if user.referred_by ≠ "" then
      match findUserByCode users user.referred_by with
      | some referrer =>
        let base_time := sub.current_period_end.getD now
        let users1 := saveUser users
          { referrer with is_unlimited := true,
                          package_expiry := some (base_time + 30 * daySecs) }
        saveUser users1
          { user with is_unlimited := true,
                      package_expiry := some (base_time + 7 * daySecs) }
      | none => users
    else users

/-- `checkout.session.completed` payload fields read by the handler. -/
structure CheckoutSessionObj where
  customer : Option String
  subscription : Option String
  metadata_user_id : Option Nat
  deriving Repr, DecidableEq

/-- `customer.subscription.*` payload fields read by the handlers. -/
structure SubEventObj where
  id : String
  customer : Option String
  status : String
  trial_end : Option Nat
  current_period_end : Option Nat
  deriving Repr, DecidableEq

/-- The provider's response to `stripe.Subscription.retrieve`. -/
structure ProviderSub where
  id : String
  status : String
  trial_end : Option Nat
  current_period_end : Option Nat
  deriving Repr, DecidableEq

/-- A webhook event together with the provider response it entails. -/
inductive StripeEvent where
  | checkoutSessionCompleted (obj : CheckoutSessionObj) (providerSub : ProviderSub)
  | customerSubscriptionCreated (obj : SubEventObj)
  | customerSubscriptionUpdated (obj : SubEventObj)
  | customerSubscriptionDeleted (obj : SubEventObj)
  | unhandled (typeName : String)
  deriving Repr, DecidableEq

/-- The `event["type"]` string of an event. -/
def StripeEvent.typeName : StripeEvent → String
  | .checkoutSessionCompleted _ _ => "checkout.session.completed"
  | .customerSubscriptionCreated _ => "customer.subscription.created"
  | .customerSubscriptionUpdated _ => "customer.subscription.updated"
  | .customerSubscriptionDeleted _ => "customer.subscription.deleted"
  | .unhandled ty => ty

/-- Persistent state touched by the payment views: the subscription
ledger, the user table and the `WebhookEvent` audit rows
(event id, event type). -/
structure St where
  subs : List Subscription
  users : List UserRec
  events : List (String × String)
  deriving Repr, DecidableEq

/-- The row written by the `checkout.session.completed` handler for a
located pending subscription: external id and status from the provider,
timestamps from the provider with the plan-interval fallback for a
missing `current_period_end`. -/
def reconcileCheckout (ps : ProviderSub) (sub : Subscription) : Subscription :=
  { sub with
      stripe_subscription_id := some ps.id,
      status := ps.status,
      trial_end := tsField ps.trial_end,
      current_period_end :=
        match tsField ps.current_period_end with
        | some t => some t
        | none => sub.plan.map (fun p => calculate_current_period_end p sub.created_at) }

/-- `checkout.session.completed` branch of `stripe_webhook`. -/
def handleCheckoutCompleted (obj : CheckoutSessionObj) (ps : ProviderSub)
    (now : Nat) (st : St) : St :=
  match obj.metadata_user_id with
  | none => st
  | some uid =>
    match obj.subscription with
    | none => st
    | some _ =>
      match st.subs.find? (fun s =>
          decide (s.user_id = uid ∧ s.stripe_customer_id = obj.customer ∧
                  s.status = "pending")) with
      | none => st
      | some sub =>
        let sub' := reconcileCheckout ps sub
        { st with
            subs := saveSub st.subs sub',
            users := process_referral_benefits st.users sub'.user_id sub' now }

/-- `customer.subscription.created` branch of `stripe_webhook`. -/
def handleSubCreated (obj : SubEventObj) (st : St) : St :=
  let byId := st.subs.find? (fun s =>
    decide (s.stripe_subscription_id = some obj.id))
  let found :=
    match byId with
    | some s => some s
    | none => st.subs.find? (fun s =>
        decide (s.stripe_customer_id = obj.customer ∧ s.status = "pending"))
  match found with
  | none => st
  | some sub =>
    let sub' : Subscription :=
      { sub with
          stripe_subscription_id := some obj.id,
          status := obj.status,
          trial_end := tsField obj.trial_end,
          current_period_end := tsField obj.current_period_end }
    { st with subs := saveSub st.subs sub' }

/-- `customer.subscription.updated` branch of `stripe_webhook`:
unconditional bulk update of all rows carrying the external id. -/
def handleSubUpdated (obj : SubEventObj) (st : St) : St :=
  { st with subs := st.subs.map (fun s =>
      if s.stripe_subscription_id = some obj.id then
        { s with
            status := obj.status,
            trial_end := tsField obj.trial_end,
            current_period_end := tsField obj.current_period_end }
      else s) }

/-- `customer.subscription.deleted` branch of `stripe_webhook`:
force status to canceled on all rows carrying the external id. -/
def handleSubDeleted (obj : SubEventObj) (st : St) : St :=
  { st with subs := st.subs.map (fun s =>
      if s.stripe_subscription_id = some obj.id then
        { s with status := "canceled" }
      else s) }

/-- Event-type dispatch of `stripe_webhook`; unhandled types only log. -/
def dispatchEvent (ev : StripeEvent) (now : Nat) (st : St) : St :=
  match ev with
  | .checkoutSessionCompleted obj ps => handleCheckoutCompleted obj ps now st
  | .customerSubscriptionCreated obj => handleSubCreated obj st
  | .customerSubscriptionUpdated obj => handleSubUpdated obj st
  | .customerSubscriptionDeleted obj => handleSubDeleted obj st
  | .unhandled _ => st

/-- `WebhookEvent.objects.create`: insert the audit row unless the
unique `event_id` already exists (the duplicate-key failure is caught
and processing continues). -/
def logWebhookEvent (eventId ty : String) (st : St) : St :=
  if st.events.any (fun e => decide (e.1 = eventId)) then st
  else { st with events := st.events ++ [(eventId, ty)] }

/-- An HTTP response paired with the resulting persistent state. -/
structure WebhookResponse where
  httpStatus : Nat
  state : St
  deriving Repr, DecidableEq

/-- `stripe_webhook` (`backend/payment/views.py`): reject with 400 and
no state change when signature verification or payload parsing fails
(`sigOk = false`); otherwise log the audit row, dispatch on the event
type and acknowledge with 200. -/
def stripe_webhook (sigOk : Bool) (eventId : String) (ev : StripeEvent)
    (now : Nat) (st : St) : WebhookResponse :=
  if sigOk then
    let st1 := logWebhookEvent eventId ev.typeName st
    ⟨200, dispatchEvent ev now st1⟩
  else
    ⟨400, st⟩

/-- The conflict information carried by `CreateSubscriptionView.post`'s
400 payload: the trial message, the active-plan message, or only the
base fields (plan name, status, id) when neither predicate holds. -/
inductive ConflictKind where
  | trialBlock
  | activeBlock
  | plain
  deriving Repr, DecidableEq

/-- Outcome of `CreateSubscriptionView.post`: HTTP status, the conflict
payload kind (none on success) and the resulting ledger. -/
structure CheckoutOutcome where
  httpStatus : Nat
  conflict : Option ConflictKind
  subs : List Subscription
  deriving Repr, DecidableEq

/-- `CreateSubscriptionView.post` from the active-subscription check
onward: reject with 400 when the user already has an active/trialing
row, else create the pending row with a provisional period end computed
from the plan interval. -/
def create_subscription (subs : List Subscription) (uid : Nat) (plan : Plan)
    (custId : String) (newId : Nat) (now : Nat) : CheckoutOutcome :=
  match get_user_active_subscription subs uid with
  | some existing =>
    let kind :=
      if existing.is_trial now then ConflictKind.trialBlock
      else if existing.is_paid_active then ConflictKind.activeBlock
      else ConflictKind.plain
    ⟨400, some kind, subs⟩
  | none =>
    ⟨201, none,
      subs ++ [{ id := newId, user_id := uid, plan := some plan,
                 stripe_customer_id := some custId,
                 stripe_subscription_id := none,
                 status := "pending",
                 trial_end := none,
                 current_period_end := some (calculate_current_period_end plan now),
                 auto_renew := true,
                 created_at := now }]⟩

/-- Checkout-session fields read by `CheckoutSessionStatusView.get`. -/
structure SessionInfo where
  payment_status : String
  session_status : String
  subscription : Option String
  metadata_user_id : Option Nat
  deriving Repr, DecidableEq

/-- `CheckoutSessionStatusView.get`: when the session is paid and has a
subscription, reconcile the user's pending ledger row from the provider
subscription. -/
def checkout_session_status (sess : SessionInfo) (ps : ProviderSub)
    (subs : List Subscription) : List Subscription :=
  if sess.payment_status = "paid" then
    match sess.subscription with
    | none => subs
    | some _ =>
      match sess.metadata_user_id with
      | none => subs
      | some uid =>
        match subs.find? (fun s =>
            decide (s.user_id = uid ∧ s.status = "pending")) with
        | none => subs
        | some sub =>
          let sub' : Subscription :=
            { sub with
                stripe_subscription_id := some ps.id,
                status := ps.status,
                trial_end := tsField ps.trial_end,
                current_period_end := tsField ps.current_period_end }
          saveSub subs sub'
  else subs

/-- `SubscriptionStopAutoRenewalView.post`: toggle `auto_renew` on the
user's active subscription; 404 (no change) when there is none or it
has no external id. -/
def stop_auto_renewal (subs : List Subscription) (uid : Nat)
    (requestAutoRenew : Bool) : List Subscription :=
  match get_user_active_subscription subs uid with
  | none => subs
  | some a =>
    if a.stripe_subscription_id.getD "" = "" then subs
    else saveSub subs { a with auto_renew := requestAutoRenew }

/-! ### Generic lemmas about row-list tables -/

theorem dbSave_map_key {α : Type} (key : α → Nat) (l : List α) (b : α) :
    (dbSave key l b).map key = l.map key := by
  unfold dbSave
  rw [List.map_map]
  apply List.map_congr_left
  intro a _
  by_cases h : key a = key b
  · simp [Function.comp, h]
  · simp [Function.comp, h]

theorem mem_dbSave_of_ne {α : Type} {key : α → Nat} {l : List α} {a b : α}
    (ha : a ∈ l) (hne : key a ≠ key b) : a ∈ dbSave key l b := by
  unfold dbSave
  exact List.mem_map.mpr ⟨a, ha, by simp [hne]⟩

theorem mem_dbSave_self {α : Type} {key : α → Nat} {l : List α} {a b : α}
    (ha : a ∈ l) (hk : key a = key b) : b ∈ dbSave key l b := by
  unfold dbSave
  exact List.mem_map.mpr ⟨a, ha, by simp [hk]⟩

theorem key_inj_of_nodup {α : Type} {key : α → Nat} {l : List α} {a c : α}
    (hnd : (l.map key).Nodup) (ha : a ∈ l) (hc : c ∈ l)
    (hk : key a = key c) : a = c :=
  List.inj_on_of_nodup_map hnd ha hc hk

theorem dbSave_eq_self {α : Type} {key : α → Nat} {l : List α} {b : α}
    (hnd : (l.map key).Nodup) (hb : b ∈ l) : dbSave key l b = l := by
  unfold dbSave
  have h1 : ∀ v ∈ l, (if key v = key b then b else v) = id v := by
    intro v hv
    by_cases h : key v = key b
    · simp only [h, if_true, id]
      exact (key_inj_of_nodup hnd hv hb h).symm
    · simp [h]
  rw [List.map_congr_left h1, List.map_id]

theorem find?_dbSave_of_pred {α : Type} {key : α → Nat} {p : α → Bool}
    {l : List α} {a b : α}
    (hnd : (l.map key).Nodup) (hfind : l.find? p = some a)
    (hk : key b = key a) (hpb : p b = true) :
    (dbSave key l b).find? p = some b := by
  induction l with
  | nil => simp at hfind
  | cons x xs ih =>
    by_cases hx : p x = true
    · rw [List.find?_cons_of_pos _ hx] at hfind
      injection hfind with hfind
      subst hfind
      simp only [dbSave, List.map_cons, if_pos hk.symm]
      exact List.find?_cons_of_pos _ hpb
    · rw [List.find?_cons_of_neg _ hx] at hfind
      have hax : a ∈ xs := List.mem_of_find?_eq_some hfind
      rw [List.map_cons] at hnd
      have hnotin := (List.nodup_cons.mp hnd).1
      have hnd' := (List.nodup_cons.mp hnd).2
      have hkx : ¬ key x = key b := by
        intro hcontra
        exact hnotin (by
          rw [hcontra, hk]
          exact List.mem_map.mpr ⟨a, hax, rfl⟩)
      simp only [dbSave, List.map_cons, if_neg hkx]
      rw [List.find?_cons_of_neg _ hx]
      simpa [dbSave] using ih hnd' hfind

theorem find?_dbSave_of_none {α : Type} {key : α → Nat} {p : α → Bool}
    {l : List α} {a b : α}
    (hnone : l.find? p = none) (ha : a ∈ l)
    (hk : key b = key a) (hpb : p b = true) :
    (dbSave key l b).find? p = some b := by
  have hall : ∀ v ∈ l, p v = false := by
    intro v hv
    have := List.find?_eq_none.mp hnone v hv
    simpa using this
  induction l with
  | nil => simp at ha
  | cons x xs ih =>
    have hpx : ¬ p x = true := by
      simp [hall x (List.mem_cons_self x xs)]
    by_cases hx : key x = key b
    · simp only [dbSave, List.map_cons, if_pos hx]
      exact List.find?_cons_of_pos _ hpb
    · have hax : a ∈ xs := by
        rcases List.mem_cons.mp ha with h | h
        · exact absurd (by rw [h] at hk; exact hk.symm) hx
        · exact h
      have hnone' : List.find? p xs = none := by
        rw [List.find?_cons_of_neg _ hpx] at hnone
        exact hnone
      simp only [dbSave, List.map_cons, if_neg hx]
      rw [List.find?_cons_of_neg _ hpx]
      simpa [dbSave] using
        ih hnone' hax (fun v hv => hall v (List.mem_cons_of_mem x hv))

theorem find?_dbSave_none {α : Type} {key : α → Nat} {p : α → Bool}
    {l : List α} {a b : α}
    (hfind : l.find? p = some a)
    (huniq : ∀ v ∈ l, p v = true → v = a)
    (hk : key b = key a) (hpb : p b = false) :
    (dbSave key l b).find? p = none := by
  apply List.find?_eq_none.mpr
  intro v' hv'
  rcases List.mem_map.mp hv' with ⟨v, hv, rfl⟩
  by_cases h : key v = key b
  · simp only [h, if_pos rfl]
    simpa using hpb
  · simp only [h, if_neg]
    intro hpv
    have := huniq v hv hpv
    subst this
    exact h (hk.symm ▸ rfl)

theorem map_ite_id {α : Type} {q : α → Prop} [DecidablePred q] {u : α → α}
    {l : List α} (h : ∀ v ∈ l, ¬ q v) :
    l.map (fun v => if q v then u v else v) = l := by
  have h1 : ∀ v ∈ l, (if q v then u v else v) = id v := by
    intro v hv
    simp [h v hv]
  rw [List.map_congr_left h1, List.map_id]

theorem map_ite_idem {α : Type} {q : α → Prop} [DecidablePred q] {u : α → α}
    (l : List α)
    (hq : ∀ v, q v → q (u v))
    (hu : ∀ v, u (u v) = u v) :
    (l.map (fun v => if q v then u v else v)).map
      (fun v => if q v then u v else v) =
    l.map (fun v => if q v then u v else v) := by
  rw [List.map_map]
  apply List.map_congr_left
  intro v _
  by_cases h : q v
  · simp only [Function.comp, h, if_pos, hq v h, hu v]
  · simp [Function.comp, h]

theorem find?_key_of_mem {α : Type} {key : α → Nat} {l : List α} {a : α}
    (hnd : (l.map key).Nodup) (ha : a ∈ l) :
    l.find? (fun v => decide (key v = key a)) = some a := by
  induction l with
  | nil => simp at ha
  | cons x xs ih =>
    have hndc := hnd
    rw [List.map_cons, List.nodup_cons] at hndc
    by_cases h : key x = key a
    · have hxa : x = a :=
        key_inj_of_nodup hnd (List.mem_cons_self x xs) ha h
      rw [List.find?_cons_of_pos _ (by simpa using h), hxa]
    · have hax : a ∈ xs := by
        rcases List.mem_cons.mp ha with rfl | h2
        · exact absurd rfl h
        · exact h2
      rw [List.find?_cons_of_neg _ (by simpa using h)]
      exact ih hndc.2 hax

theorem map_dbSave_eq {α β : Type} {key : α → Nat} {f : α → β} {l : List α}
    {a b : α} (hnd : (l.map key).Nodup) (ha : a ∈ l) (hk : key b = key a)
    (hf : f b = f a) : (dbSave key l b).map f = l.map f := by
  unfold dbSave
  rw [List.map_map]
  apply List.map_congr_left
  intro v hv
  by_cases h : key v = key b
  · have hva : v = a := key_inj_of_nodup hnd hv ha (h.trans hk)
    simp only [Function.comp, if_pos h]
    rw [hf, hva]
  · simp [Function.comp, h]

/-! ### Small facts about the webhook wrapper -/

theorem logWebhookEvent_subs (eventId ty : String) (st : St) :
    (logWebhookEvent eventId ty st).subs = st.subs := by
  unfold logWebhookEvent
  split <;> rfl

theorem logWebhookEvent_users (eventId ty : String) (st : St) :
    (logWebhookEvent eventId ty st).users = st.users := by
  unfold logWebhookEvent
  split <;> rfl

theorem stripe_webhook_true (eventId : String) (ev : StripeEvent) (now : Nat)
    (st : St) :
    stripe_webhook true eventId ev now st =
      ⟨200, dispatchEvent ev now (logWebhookEvent eventId ev.typeName st)⟩ := rfl

/-! ### Claim theorems -/

/-- C6: a webhook request whose signature does not verify or whose
payload is malformed is answered with a 400 response and performs no
state mutation at all: no `WebhookEvent` row is inserted and no
subscription or user field changes. -/
theorem c6_webhook_fails_closed (eventId : String) (ev : StripeEvent)
    (now : Nat) (st : St) :
    stripe_webhook false eventId ev now st = ⟨400, st⟩ := rfl

/-- C8: `is_trial` returns true exactly when the status is trialing or
active, `trial_end` is set, and `trial_end` is strictly in the future. -/
theorem c8_is_trial_iff (s : Subscription) (now : Nat) :
    s.is_trial now = true ↔
      (s.status = "trialing" ∨ s.status = "active") ∧
      ∃ t, s.trial_end = some t ∧ now < t := by
  unfold Subscription.is_trial
  cases h : s.trial_end with
  | none => simp [h]
  | some t =>
    simp only [Bool.and_eq_true, Bool.or_eq_true, decide_eq_true_eq, h,
      Option.some.injEq]
    constructor
    · rintro ⟨hs, ht⟩
      exact ⟨hs, t, rfl, ht⟩
    · rintro ⟨hs, t', ht', hlt⟩
      cases ht'
      exact ⟨hs, hlt⟩

/-- C7: a `customer.subscription.updated` event whose external id
matches no ledger row is acknowledged with 200 and affects zero
subscription rows and no user. -/
theorem c7_updated_without_match_is_noop (eventId : String)
    (obj : SubEventObj) (now : Nat) (st : St)
    (h : ∀ s ∈ st.subs, s.stripe_subscription_id ≠ some obj.id) :
    (stripe_webhook true eventId (.customerSubscriptionUpdated obj) now st).httpStatus = 200 ∧
    (stripe_webhook true eventId (.customerSubscriptionUpdated obj) now st).state.subs = st.subs ∧
    (stripe_webhook true eventId (.customerSubscriptionUpdated obj) now st).state.users = st.users := by
  rw [stripe_webhook_true]
  refine ⟨rfl, ?_, ?_⟩
  · show (handleSubUpdated obj _).subs = st.subs
    unfold handleSubUpdated
    rw [logWebhookEvent_subs]
    exact map_ite_id (fun v hv => h v hv)
  · show (handleSubUpdated obj _).users = st.users
    unfold handleSubUpdated
    exact logWebhookEvent_users _ _ _

/-- Witness for C7 at a concrete ledger with one non-matching row. -/
theorem c7_updated_without_match_is_noop_witness :
    (stripe_webhook true "evt_1"
      (.customerSubscriptionUpdated ⟨"sub_b", none, "active", none, none⟩) 0
      ⟨[{ id := 1, user_id := 1, plan := none, stripe_customer_id := none,
          stripe_subscription_id := some "sub_a", status := "active",
          trial_end := none, current_period_end := some 9,
          auto_renew := true, created_at := 0 }], [], []⟩).httpStatus = 200 ∧
    (stripe_webhook true "evt_1"
      (.customerSubscriptionUpdated ⟨"sub_b", none, "active", none, none⟩) 0
      ⟨[{ id := 1, user_id := 1, plan := none, stripe_customer_id := none,
          stripe_subscription_id := some "sub_a", status := "active",
          trial_end := none, current_period_end := some 9,
          auto_renew := true, created_at := 0 }], [], []⟩).state.subs =
      [{ id := 1, user_id := 1, plan := none, stripe_customer_id := none,
         stripe_subscription_id := some "sub_a", status := "active",
         trial_end := none, current_period_end := some 9,
         auto_renew := true, created_at := 0 }] ∧
    (stripe_webhook true "evt_1"
      (.customerSubscriptionUpdated ⟨"sub_b", none, "active", none, none⟩) 0
      ⟨[{ id := 1, user_id := 1, plan := none, stripe_customer_id := none,
          stripe_subscription_id := some "sub_a", status := "active",
          trial_end := none, current_period_end := some 9,
          auto_renew := true, created_at := 0 }], [], []⟩).state.users = [] :=
  c7_updated_without_match_is_noop "evt_1" _ 0 _ (by decide)

/-- C10: the `customer.subscription.updated` and
`customer.subscription.created` handlers write
`tsField` of the payload's timestamps into a matching row
unconditionally — whether the created handler matched the row by its
external subscription id or through the (customer, pending) fallback —
and `tsField` maps an omitted field to `none`, so an omitted
`trial_end` or `current_period_end` overwrites any previously stored
value (including the checkout-provisional period end on a pending row)
with null. -/
theorem c10_omitted_timestamps_overwrite :
    (∀ (obj : SubEventObj) (now : Nat) (st : St) (s : Subscription),
       s ∈ st.subs → s.stripe_subscription_id = some obj.id →
       ({ s with status := obj.status,
                 trial_end := tsField obj.trial_end,
                 current_period_end := tsField obj.current_period_end } :
          Subscription) ∈
         (dispatchEvent (.customerSubscriptionUpdated obj) now st).subs)
    ∧ (∀ (obj : SubEventObj) (now : Nat) (st : St) (s : Subscription),
       st.subs.find?
           (fun v => decide (v.stripe_subscription_id = some obj.id)) = some s →
       (dispatchEvent (.customerSubscriptionCreated obj) now st).subs =
         saveSub st.subs
           { s with stripe_subscription_id := some obj.id,
                    status := obj.status,
                    trial_end := tsField obj.trial_end,
                    current_period_end := tsField obj.current_period_end })
    ∧ (∀ (obj : SubEventObj) (now : Nat) (st : St) (s : Subscription),
       st.subs.find?
           (fun v => decide (v.stripe_subscription_id = some obj.id)) = none →
       st.subs.find?
           (fun v => decide (v.stripe_customer_id = obj.customer ∧
                             v.status = "pending")) = some s →
       (dispatchEvent (.customerSubscriptionCreated obj) now st).subs =
         saveSub st.subs
           { s with stripe_subscription_id := some obj.id,
                    status := obj.status,
                    trial_end := tsField obj.trial_end,
                    current_period_end := tsField obj.current_period_end })
    ∧ tsField none = none := by
  refine ⟨?_, ?_, ?_, rfl⟩
  · intro obj now st s hs hsid
    show _ ∈ (handleSubUpdated obj st).subs
    unfold handleSubUpdated
    have := List.mem_map_of_mem
      (fun v : Subscription =>
        if v.stripe_subscription_id = some obj.id then
          { v with status := obj.status,
                   trial_end := tsField obj.trial_end,
                   current_period_end := tsField obj.current_period_end }
        else v) hs
    simpa [hsid] using this
  · intro obj now st s hfind
    show (handleSubCreated obj st).subs = _
    unfold handleSubCreated
    rw [hfind]
  · intro obj now st s h1 h2
    show (handleSubCreated obj st).subs = _
    unfold handleSubCreated
    simp only [h1, h2]

/-- Witness for C10: an update event omitting both fields overwrites a
stored `trial_end`/`current_period_end` pair with null, and a created
event reaching a pending row through the (customer, pending) fallback
discards the checkout-provisional period end the same way. -/
theorem c10_omitted_timestamps_overwrite_witness :
    ({ id := 1, user_id := 1, plan := none, stripe_customer_id := none,
       stripe_subscription_id := some "sub_a", status := "active",
       trial_end := none, current_period_end := none, auto_renew := true,
       created_at := 0 : Subscription } ∈
      (dispatchEvent
        (.customerSubscriptionUpdated ⟨"sub_a", none, "active", none, none⟩) 0
        ⟨[{ id := 1, user_id := 1, plan := none, stripe_customer_id := none,
            stripe_subscription_id := some "sub_a", status := "trialing",
            trial_end := some 5, current_period_end := some 9,
            auto_renew := true, created_at := 0 }], [], []⟩).subs) ∧
    (dispatchEvent
        (.customerSubscriptionCreated ⟨"sub_n", some "cus_1", "active", none, none⟩) 0
        ⟨[{ id := 2, user_id := 1, plan := none,
            stripe_customer_id := some "cus_1",
            stripe_subscription_id := none, status := "pending",
            trial_end := some 5, current_period_end := some 999,
            auto_renew := true, created_at := 0 }], [], []⟩).subs =
      saveSub
        [{ id := 2, user_id := 1, plan := none,
           stripe_customer_id := some "cus_1",
           stripe_subscription_id := none, status := "pending",
           trial_end := some 5, current_period_end := some 999,
           auto_renew := true, created_at := 0 }]
        { id := 2, user_id := 1, plan := none,
          stripe_customer_id := some "cus_1",
          stripe_subscription_id := some "sub_n", status := "active",
          trial_end := none, current_period_end := none,
          auto_renew := true, created_at := 0 } :=
  ⟨c10_omitted_timestamps_overwrite.1
    ⟨"sub_a", none, "active", none, none⟩ 0
    ⟨[{ id := 1, user_id := 1, plan := none, stripe_customer_id := none,
        stripe_subscription_id := some "sub_a", status := "trialing",
        trial_end := some 5, current_period_end := some 9,
        auto_renew := true, created_at := 0 }], [], []⟩
    { id := 1, user_id := 1, plan := none, stripe_customer_id := none,
      stripe_subscription_id := some "sub_a", status := "trialing",
      trial_end := some 5, current_period_end := some 9,
      auto_renew := true, created_at := 0 }
    (by simp) rfl,
   c10_omitted_timestamps_overwrite.2.2.1
    ⟨"sub_n", some "cus_1", "active", none, none⟩ 0
    ⟨[{ id := 2, user_id := 1, plan := none,
        stripe_customer_id := some "cus_1",
        stripe_subscription_id := none, status := "pending",
        trial_end := some 5, current_period_end := some 999,
        auto_renew := true, created_at := 0 }], [], []⟩
    { id := 2, user_id := 1, plan := none,
      stripe_customer_id := some "cus_1",
      stripe_subscription_id := none, status := "pending",
      trial_end := some 5, current_period_end := some 999,
      auto_renew := true, created_at := 0 }
    (by decide) (by decide)⟩

/-- C5: `calculate_current_period_end` adds `interval_count` days,
weeks, 30-day months or 365-day years to the start date (60 days for a
2-month plan), and the `checkout.session.completed` handler uses it,
seeded with the row's creation time, whenever the provider omits
`current_period_end`. -/
theorem c5_period_end_computation :
    (∀ (p : Plan) (start : Nat), p.interval = "day" →
       calculate_current_period_end p start = start + p.interval_count * daySecs)
    ∧ (∀ (p : Plan) (start : Nat), p.interval = "week" →
       calculate_current_period_end p start = start + p.interval_count * 7 * daySecs)
    ∧ (∀ (p : Plan) (start : Nat), p.interval = "month" →
       calculate_current_period_end p start = start + 30 * p.interval_count * daySecs)
    ∧ (∀ (p : Plan) (start : Nat), p.interval = "year" →
       calculate_current_period_end p start = start + 365 * p.interval_count * daySecs)
    ∧ (∀ (p : Plan) (start : Nat), p.interval = "month" → p.interval_count = 2 →
       calculate_current_period_end p start = start + 60 * daySecs)
    ∧ (∀ (obj : CheckoutSessionObj) (ps : ProviderSub) (now : Nat) (st : St)
         (uid : Nat) (sub : Subscription) (pl : Plan),
       obj.metadata_user_id = some uid →
       obj.subscription.isSome →
       st.subs.find? (fun s =>
           decide (s.user_id = uid ∧ s.stripe_customer_id = obj.customer ∧
                   s.status = "pending")) = some sub →
       tsField ps.current_period_end = none →
       sub.plan = some pl →
       (dispatchEvent (.checkoutSessionCompleted obj ps) now st).subs =
         saveSub st.subs
           { sub with stripe_subscription_id := some ps.id,
                      status := ps.status,
                      trial_end := tsField ps.trial_end,
                      current_period_end :=
                        some (calculate_current_period_end pl sub.created_at) }) := by
  refine ⟨?_, ?_, ?_, ?_, ?_, ?_⟩
  · intro p start h
    simp [calculate_current_period_end, h]
  · intro p start h
    simp [calculate_current_period_end, h]
  · intro p start h
    simp [calculate_current_period_end, h]
  · intro p start h
    simp [calculate_current_period_end, h]
  · intro p start h hc
    simp [calculate_current_period_end, h, hc]
  · intro obj ps now st uid sub pl h1 h2 hfind hcpe hplan
    obtain ⟨sid, hsid⟩ := Option.isSome_iff_exists.mp h2
    have hrec : reconcileCheckout ps sub =
        { sub with stripe_subscription_id := some ps.id,
                   status := ps.status,
                   trial_end := tsField ps.trial_end,
                   current_period_end :=
                     some (calculate_current_period_end pl sub.created_at) } := by
      unfold reconcileCheckout
      rw [hcpe, hplan]
      rfl
    show (handleCheckoutCompleted obj ps now st).subs = _
    unfold handleCheckoutCompleted
    simp only [h1, hsid, hfind, hrec]

/-- Witness for C5: a 2-month plan yields a 60-day provisional period
end, and the fallback fires on a concrete checkout-completed event with
no provider period end. -/
theorem c5_period_end_computation_witness :
    calculate_current_period_end
        ⟨"Pro", 1000, "month", 2, 0, true⟩ 100 = 100 + 60 * daySecs ∧
    (dispatchEvent
        (.checkoutSessionCompleted ⟨some "cus_1", some "sub_x", some 1⟩
          ⟨"sub_x", "active", none, none⟩) 0
        ⟨[{ id := 1, user_id := 1, plan := some ⟨"Pro", 1000, "month", 2, 0, true⟩,
            stripe_customer_id := some "cus_1", stripe_subscription_id := none,
            status := "pending", trial_end := none, current_period_end := none,
            auto_renew := true, created_at := 50 }], [], []⟩).subs =
      saveSub
        [{ id := 1, user_id := 1, plan := some ⟨"Pro", 1000, "month", 2, 0, true⟩,
           stripe_customer_id := some "cus_1", stripe_subscription_id := none,
           status := "pending", trial_end := none, current_period_end := none,
           auto_renew := true, created_at := 50 }]
        { id := 1, user_id := 1, plan := some ⟨"Pro", 1000, "month", 2, 0, true⟩,
          stripe_customer_id := some "cus_1", stripe_subscription_id := some "sub_x",
          status := "active", trial_end := none,
          current_period_end :=
            some (calculate_current_period_end ⟨"Pro", 1000, "month", 2, 0, true⟩ 50),
          auto_renew := true, created_at := 50 } :=
  ⟨c5_period_end_computation.2.2.2.2.1 ⟨"Pro", 1000, "month", 2, 0, true⟩ 100 rfl rfl,
   c5_period_end_computation.2.2.2.2.2
     ⟨some "cus_1", some "sub_x", some 1⟩ ⟨"sub_x", "active", none, none⟩ 0
     ⟨[{ id := 1, user_id := 1, plan := some ⟨"Pro", 1000, "month", 2, 0, true⟩,
         stripe_customer_id := some "cus_1", stripe_subscription_id := none,
         status := "pending", trial_end := none, current_period_end := none,
         auto_renew := true, created_at := 50 }], [], []⟩
     1
     { id := 1, user_id := 1, plan := some ⟨"Pro", 1000, "month", 2, 0, true⟩,
       stripe_customer_id := some "cus_1", stripe_subscription_id := none,
       status := "pending", trial_end := none, current_period_end := none,
       auto_renew := true, created_at := 50 }
     ⟨"Pro", 1000, "month", 2, 0, true⟩
     rfl rfl (by decide) rfl rfl⟩

/-- C3: when the purchaser's `referred_by` code resolves to an existing
referrer, the benefit engine sets the referrer unlimited until
`base_time + 30` days and the purchaser unlimited until
`base_time + 7` days, with `base_time` the subscription's
`current_period_end` (or `now` when absent), leaving all other users
untouched; when `referred_by` is empty or resolves to nobody, the user
table is unchanged. -/
theorem c3_referral_benefit_grants (users : List UserRec) (uid : Nat)
    (user : UserRec) (sub : Subscription) (now : Nat)
    (hnd : (users.map UserRec.id).Nodup)
    (hu : users.find? (fun v => decide (v.id = uid)) = some user) :
    (user.referred_by = "" →
       process_referral_benefits users uid sub now = users)
    ∧ (findUserByCode users user.referred_by = none →
       process_referral_benefits users uid sub now = users)
    ∧ (∀ referrer, user.referred_by ≠ "" →
       findUserByCode users user.referred_by = some referrer →
       referrer.id ≠ user.id →
       (process_referral_benefits users uid sub now).find?
           (fun v => decide (v.id = referrer.id)) =
         some { referrer with
                  is_unlimited := true,
                  package_expiry :=
                    some (sub.current_period_end.getD now + 30 * daySecs) }
       ∧ (process_referral_benefits users uid sub now).find?
           (fun v => decide (v.id = user.id)) =
         some { user with
                  is_unlimited := true,
                  package_expiry :=
                    some (sub.current_period_end.getD now + 7 * daySecs) }
       ∧ ∀ v ∈ users, v.id ≠ referrer.id → v.id ≠ user.id →
           v ∈ process_referral_benefits users uid sub now) := by
  refine ⟨?_, ?_, ?_⟩
  · intro h
    unfold process_referral_benefits
    simp [hu, h]
  · intro h
    unfold process_referral_benefits
    by_cases hrb : user.referred_by = ""
    · simp [hu, hrb]
    · simp [hu, hrb, h]
  · intro referrer hrb hfound hne
    have huser : user ∈ users := List.mem_of_find?_eq_some hu
    have href : referrer ∈ users := by
      have : users.find? (fun v => decide (v.referral_code = user.referred_by)) =
          some referrer := hfound
      exact List.mem_of_find?_eq_some this
    have hres : process_referral_benefits users uid sub now =
        saveUser (saveUser users
          { referrer with
              is_unlimited := true,
              package_expiry :=
                some (sub.current_period_end.getD now + 30 * daySecs) })
          { user with
              is_unlimited := true,
              package_expiry :=
                some (sub.current_period_end.getD now + 7 * daySecs) } := by
      unfold process_referral_benefits
      simp [hu, hfound, hrb]
    have hnd1 : ((saveUser users
        { referrer with
            is_unlimited := true,
            package_expiry :=
              some (sub.current_period_end.getD now + 30 * daySecs) }).map
          UserRec.id).Nodup := by
      unfold saveUser
      rw [dbSave_map_key]
      exact hnd
    have hnd2 : ((saveUser (saveUser users
        { referrer with
            is_unlimited := true,
            package_expiry :=
              some (sub.current_period_end.getD now + 30 * daySecs) })
          { user with
              is_unlimited := true,
              package_expiry :=
                some (sub.current_period_end.getD now + 7 * daySecs) }).map
          UserRec.id).Nodup := by
      unfold saveUser
      rw [dbSave_map_key]
      exact hnd1
    have hrmem1 : ({ referrer with
        is_unlimited := true,
        package_expiry :=
          some (sub.current_period_end.getD now + 30 * daySecs) } : UserRec) ∈
        saveUser users
          { referrer with
              is_unlimited := true,
              package_expiry :=
                some (sub.current_period_end.getD now + 30 * daySecs) } :=
      mem_dbSave_self href rfl
    have hrmem2 : ({ referrer with
        is_unlimited := true,
        package_expiry :=
          some (sub.current_period_end.getD now + 30 * daySecs) } : UserRec) ∈
        saveUser (saveUser users
          { referrer with
              is_unlimited := true,
              package_expiry :=
                some (sub.current_period_end.getD now + 30 * daySecs) })
          { user with
              is_unlimited := true,
              package_expiry :=
                some (sub.current_period_end.getD now + 7 * daySecs) } :=
      mem_dbSave_of_ne hrmem1 hne
    have humem1 : user ∈ saveUser users
        { referrer with
            is_unlimited := true,
            package_expiry :=
              some (sub.current_period_end.getD now + 30 * daySecs) } :=
      mem_dbSave_of_ne huser (fun h => hne h.symm)
    have humem2 : ({ user with
        is_unlimited := true,
        package_expiry :=
          some (sub.current_period_end.getD now + 7 * daySecs) } : UserRec) ∈
        saveUser (saveUser users
          { referrer with
              is_unlimited := true,
              package_expiry :=
                some (sub.current_period_end.getD now + 30 * daySecs) })
          { user with
              is_unlimited := true,
              package_expiry :=
                some (sub.current_period_end.getD now + 7 * daySecs) } :=
      mem_dbSave_self humem1 rfl
    refine ⟨?_, ?_, ?_⟩
    · rw [hres]
      exact find?_key_of_mem hnd2 hrmem2
    · rw [hres]
      exact find?_key_of_mem hnd2 humem2
    · intro v hv hvr hvu
      rw [hres]
      exact mem_dbSave_of_ne (mem_dbSave_of_ne hv hvr) hvu

/-- Witness for C3 on a concrete two-user table: purchaser 2 referred
by user 1's code receives 7 bonus days and the referrer 30, from the
subscription's period end 1000. -/
theorem c3_referral_benefit_grants_witness :
    (process_referral_benefits
        [⟨1, "ABC123", "", false, none⟩, ⟨2, "XYZ789", "ABC123", false, none⟩]
        2
        { id := 7, user_id := 2, plan := none, stripe_customer_id := none,
          stripe_subscription_id := some "sub_a", status := "active",
          trial_end := none, current_period_end := some 1000,
          auto_renew := true, created_at := 0 }
        5).find? (fun v => decide (v.id = 1)) =
      some ⟨1, "ABC123", "", true, some (1000 + 30 * daySecs)⟩ ∧
    (process_referral_benefits
        [⟨1, "ABC123", "", false, none⟩, ⟨2, "XYZ789", "ABC123", false, none⟩]
        2
        { id := 7, user_id := 2, plan := none, stripe_customer_id := none,
          stripe_subscription_id := some "sub_a", status := "active",
          trial_end := none, current_period_end := some 1000,
          auto_renew := true, created_at := 0 }
        5).find? (fun v => decide (v.id = 2)) =
      some ⟨2, "XYZ789", "ABC123", true, some (1000 + 7 * daySecs)⟩ := by
  have h := (c3_referral_benefit_grants
    [⟨1, "ABC123", "", false, none⟩, ⟨2, "XYZ789", "ABC123", false, none⟩]
    2 ⟨2, "XYZ789", "ABC123", false, none⟩
    { id := 7, user_id := 2, plan := none, stripe_customer_id := none,
      stripe_subscription_id := some "sub_a", status := "active",
      trial_end := none, current_period_end := some 1000,
      auto_renew := true, created_at := 0 }
    5 (by decide) (by decide)).2.2
    ⟨1, "ABC123", "", false, none⟩ (by decide) (by decide) (by decide)
  exact ⟨h.1, h.2.1⟩

/-- C4 (amended): a checkout attempt by a user with an active or
trialing subscription is rejected with a 400 conflict and the ledger is
left unchanged (no pending row is created); the payload carries the
trial-block message when the existing subscription satisfies `is_trial`
and the active-plan message when it is paid-active, but a trialing
subscription whose `trial_end` is absent or past yields only the base
conflict fields. -/
theorem c4_checkout_conflict (subs : List Subscription) (uid newId : Nat)
    (plan : Plan) (custId : String) (now : Nat) (existing : Subscription)
    (h : get_user_active_subscription subs uid = some existing) :
    (create_subscription subs uid plan custId newId now).httpStatus = 400 ∧
    (create_subscription subs uid plan custId newId now).subs = subs ∧
    (create_subscription subs uid plan custId newId now).conflict.isSome = true ∧
    (existing.is_trial now = true →
      (create_subscription subs uid plan custId newId now).conflict =
        some ConflictKind.trialBlock) ∧
    (existing.is_trial now = false → existing.is_paid_active = true →
      (create_subscription subs uid plan custId newId now).conflict =
        some ConflictKind.activeBlock) := by
  unfold create_subscription
  simp only [h]
  refine ⟨trivial, trivial, ?_, ?_, ?_⟩
  · split <;> simp
  · intro ht
    simp [ht]
  · intro ht hp
    simp [ht, hp]

/-- Witness for C4: a user with a paid-active subscription is rejected
with the active-plan conflict and the ledger is unchanged. -/
theorem c4_checkout_conflict_witness :
    (create_subscription
        [{ id := 1, user_id := 1, plan := none, stripe_customer_id := none,
           stripe_subscription_id := some "sub_a", status := "active",
           trial_end := none, current_period_end := some 99,
           auto_renew := true, created_at := 0 }]
        1 ⟨"Pro", 1000, "month", 1, 0, true⟩ "cus_1" 2 5).httpStatus = 400 ∧
    (create_subscription
        [{ id := 1, user_id := 1, plan := none, stripe_customer_id := none,
           stripe_subscription_id := some "sub_a", status := "active",
           trial_end := none, current_period_end := some 99,
           auto_renew := true, created_at := 0 }]
        1 ⟨"Pro", 1000, "month", 1, 0, true⟩ "cus_1" 2 5).subs =
      [{ id := 1, user_id := 1, plan := none, stripe_customer_id := none,
         stripe_subscription_id := some "sub_a", status := "active",
         trial_end := none, current_period_end := some 99,
         auto_renew := true, created_at := 0 }] ∧
    (create_subscription
        [{ id := 1, user_id := 1, plan := none, stripe_customer_id := none,
           stripe_subscription_id := some "sub_a", status := "active",
           trial_end := none, current_period_end := some 99,
           auto_renew := true, created_at := 0 }]
        1 ⟨"Pro", 1000, "month", 1, 0, true⟩ "cus_1" 2 5).conflict =
      some ConflictKind.activeBlock := by
  have h := c4_checkout_conflict
    [{ id := 1, user_id := 1, plan := none, stripe_customer_id := none,
       stripe_subscription_id := some "sub_a", status := "active",
       trial_end := none, current_period_end := some 99,
       auto_renew := true, created_at := 0 }]
    1 2 ⟨"Pro", 1000, "month", 1, 0, true⟩ "cus_1" 5
    { id := 1, user_id := 1, plan := none, stripe_customer_id := none,
      stripe_subscription_id := some "sub_a", status := "active",
      trial_end := none, current_period_end := some 99,
      auto_renew := true, created_at := 0 }
    (by decide)
  exact ⟨h.1, h.2.1, h.2.2.2.2 (by decide) (by decide)⟩

/-- Counterexample to C4 as stated: a trialing subscription whose
`trial_end` has already passed blocks checkout with a 400 response, but
the conflict payload carries neither the trial-block nor the
active-plan message. -/
theorem c4_checkout_conflict_counterexample :
    (create_subscription
        [{ id := 1, user_id := 1, plan := none, stripe_customer_id := none,
           stripe_subscription_id := some "sub_a", status := "trialing",
           trial_end := some 5, current_period_end := some 99,
           auto_renew := true, created_at := 0 }]
        1 ⟨"Pro", 1000, "month", 1, 0, true⟩ "cus_1" 2 10).httpStatus = 400 ∧
    (create_subscription
        [{ id := 1, user_id := 1, plan := none, stripe_customer_id := none,
           stripe_subscription_id := some "sub_a", status := "trialing",
           trial_end := some 5, current_period_end := some 99,
           auto_renew := true, created_at := 0 }]
        1 ⟨"Pro", 1000, "month", 1, 0, true⟩ "cus_1" 2 10).conflict ≠
      some ConflictKind.trialBlock ∧
    (create_subscription
        [{ id := 1, user_id := 1, plan := none, stripe_customer_id := none,
           stripe_subscription_id := some "sub_a", status := "trialing",
           trial_end := some 5, current_period_end := some 99,
           auto_renew := true, created_at := 0 }]
        1 ⟨"Pro", 1000, "month", 1, 0, true⟩ "cus_1" 2 10).conflict ≠
      some ConflictKind.activeBlock := by
  decide

/-- C9 (amended): status transitions are performed by the webhook
handler and by the checkout-session status polling endpoint (which
reconciles a paid session's pending row from provider state); the
remaining operations preserve statuses — checkout creation only appends
the initial pending row, the auto-renew toggle never changes a status,
and the session-status endpoint is a no-op for unpaid sessions. -/
theorem c9_status_owned_by_handlers :
    (∀ (subs : List Subscription) (uid newId : Nat) (plan : Plan)
       (custId : String) (now : Nat),
       (create_subscription subs uid plan custId newId now).subs = subs ∨
       ∃ r : Subscription, r.status = "pending" ∧
         (create_subscription subs uid plan custId newId now).subs = subs ++ [r])
    ∧ (∀ (subs : List Subscription) (uid : Nat) (b : Bool),
       (subs.map Subscription.id).Nodup →
       (stop_auto_renewal subs uid b).map Subscription.status =
         subs.map Subscription.status)
    ∧ (∀ (sess : SessionInfo) (ps : ProviderSub) (subs : List Subscription),
       sess.payment_status ≠ "paid" →
       checkout_session_status sess ps subs = subs) := by
  refine ⟨?_, ?_, ?_⟩
  · intro subs uid newId plan custId now
    unfold create_subscription
    cases h : get_user_active_subscription subs uid with
    | some existing => exact Or.inl rfl
    | none => exact Or.inr ⟨_, rfl, rfl⟩
  · intro subs uid b hnd
    cases h : get_user_active_subscription subs uid with
    | none =>
      unfold stop_auto_renewal
      simp only [h]
    | some a =>
      have ha : a ∈ subs := List.mem_of_find?_eq_some h
      unfold stop_auto_renewal
      simp only [h]
      by_cases hs : a.stripe_subscription_id.getD "" = ""
      · rw [if_pos hs]
      · rw [if_neg hs]
        exact map_dbSave_eq hnd ha rfl rfl
  · intro sess ps subs h
    unfold checkout_session_status
    rw [if_neg h]

/-- Witness for C9: the auto-renew toggle leaves the status list of a
concrete one-row ledger unchanged, and the session-status view is a
no-op for an unpaid session. -/
theorem c9_status_owned_by_handlers_witness :
    (stop_auto_renewal
        [{ id := 1, user_id := 1, plan := none, stripe_customer_id := none,
           stripe_subscription_id := some "sub_a", status := "active",
           trial_end := none, current_period_end := some 99,
           auto_renew := true, created_at := 0 }] 1 false).map
        Subscription.status =
      [{ id := 1, user_id := 1, plan := none, stripe_customer_id := none,
         stripe_subscription_id := some "sub_a", status := "active",
         trial_end := none, current_period_end := some 99,
         auto_renew := true, created_at := 0 }].map Subscription.status ∧
    checkout_session_status ⟨"unpaid", "open", none, none⟩
        ⟨"sub_a", "active", none, none⟩ [] = [] :=
  ⟨c9_status_owned_by_handlers.2.1
      [{ id := 1, user_id := 1, plan := none, stripe_customer_id := none,
         stripe_subscription_id := some "sub_a", status := "active",
         trial_end := none, current_period_end := some 99,
         auto_renew := true, created_at := 0 }] 1 false (by decide),
   c9_status_owned_by_handlers.2.2 ⟨"unpaid", "open", none, none⟩
      ⟨"sub_a", "active", none, none⟩ [] (by decide)⟩

/-- Counterexample to C9 as stated: the checkout-session status view —
not the webhook handler — moves a pending row to the provider's status
when the session is paid. -/
theorem c9_status_owned_by_handlers_counterexample :
    (checkout_session_status ⟨"paid", "complete", some "sub_x", some 1⟩
        ⟨"sub_x", "active", none, some 1000⟩
        [{ id := 1, user_id := 1, plan := none, stripe_customer_id := none,
           stripe_subscription_id := none, status := "pending",
           trial_end := none, current_period_end := none,
           auto_renew := true, created_at := 0 }]).map Subscription.status =
      ["active"] ∧
    ([{ id := 1, user_id := 1, plan := none, stripe_customer_id := none,
        stripe_subscription_id := none, status := "pending",
        trial_end := none, current_period_end := none,
        auto_renew := true, created_at := 0 }] :
      List Subscription).map Subscription.status = ["pending"] := by
  decide

theorem setStatus_eq_self {s : Subscription} {c : String} (h : s.status = c) :
    ({ s with status := c } : Subscription) = s := by
  cases s
  simp_all

/-- C1 (amended): a `canceled` subscription keeps its status under
`checkout.session.completed` events (which only match pending rows),
under `customer.subscription.deleted` events and under unhandled event
types; but `customer.subscription.updated` (and, symmetrically,
`customer.subscription.created`) events matching its external id
overwrite the status with the payload's status, so a canceled
subscription does transition whenever such an event carries a different
status. -/
theorem c1_canceled_not_overwritten_except_sync :
    (∀ (obj : CheckoutSessionObj) (ps : ProviderSub) (now : Nat) (st : St)
       (s : Subscription),
       (st.subs.map Subscription.id).Nodup → s ∈ st.subs →
       s.status = "canceled" →
       s ∈ (dispatchEvent (.checkoutSessionCompleted obj ps) now st).subs)
    ∧ (∀ (obj : SubEventObj) (now : Nat) (st : St) (s : Subscription),
       s ∈ st.subs → s.status = "canceled" →
       s ∈ (dispatchEvent (.customerSubscriptionDeleted obj) now st).subs)
    ∧ (∀ (ty : String) (now : Nat) (st : St) (s : Subscription),
       s ∈ st.subs →
       s ∈ (dispatchEvent (.unhandled ty) now st).subs)
    ∧ (∀ (obj : SubEventObj) (now : Nat) (st : St) (s : Subscription),
       s ∈ st.subs → s.stripe_subscription_id = some obj.id →
       ({ s with status := obj.status,
                 trial_end := tsField obj.trial_end,
                 current_period_end := tsField obj.current_period_end } :
          Subscription) ∈
         (dispatchEvent (.customerSubscriptionUpdated obj) now st).subs) := by
  refine ⟨?_, ?_, ?_, ?_⟩
  · intro obj ps now st s hnd hs hc
    show s ∈ (handleCheckoutCompleted obj ps now st).subs
    unfold handleCheckoutCompleted
    cases hm : obj.metadata_user_id with
    | none => exact hs
    | some uid =>
      cases hsess : obj.subscription with
      | none => exact hs
      | some sid =>
        cases hfind : st.subs.find? (fun v =>
            decide (v.user_id = uid ∧ v.stripe_customer_id = obj.customer ∧
                    v.status = "pending")) with
        | none => simp only [hfind]; exact hs
        | some sub =>
          simp only [hfind]
          have hsubmem : sub ∈ st.subs := List.mem_of_find?_eq_some hfind
          have hpend : sub.status = "pending" := by
            have hp := List.find?_some hfind
            have hp' : sub.user_id = uid ∧ sub.stripe_customer_id = obj.customer ∧
                sub.status = "pending" := by simpa using hp
            exact hp'.2.2
          have hne : s.id ≠ (reconcileCheckout ps sub).id := by
            intro hid
            have hid' : s.id = sub.id := by
              simpa [reconcileCheckout] using hid
            have hssub : s = sub := key_inj_of_nodup hnd hs hsubmem hid'
            rw [hssub, hpend] at hc
            exact absurd hc (by decide)
          exact mem_dbSave_of_ne hs hne
  · intro obj now st s hs hc
    show s ∈ (handleSubDeleted obj st).subs
    unfold handleSubDeleted
    have himg : (fun v : Subscription =>
        if v.stripe_subscription_id = some obj.id then
          { v with status := "canceled" }
        else v) s = s := by
      by_cases h : s.stripe_subscription_id = some obj.id
      · simp only [if_pos h]
        exact setStatus_eq_self hc
      · simp only [if_neg h]
    have hmem := List.mem_map_of_mem
      (fun v : Subscription =>
        if v.stripe_subscription_id = some obj.id then
          { v with status := "canceled" }
        else v) hs
    rw [himg] at hmem
    exact hmem
  · intro ty now st s hs
    exact hs
  · intro obj now st s hs hsid
    show _ ∈ (handleSubUpdated obj st).subs
    unfold handleSubUpdated
    have hmem := List.mem_map_of_mem
      (fun v : Subscription =>
        if v.stripe_subscription_id = some obj.id then
          { v with status := obj.status,
                   trial_end := tsField obj.trial_end,
                   current_period_end := tsField obj.current_period_end }
        else v) hs
    simpa [hsid] using hmem

/-- Witness for C1 (amended) on a concrete canceled row: a deleted
event and a checkout-completed event both leave it canceled, and an
updated event matching it overwrites the status field. -/
theorem c1_canceled_not_overwritten_except_sync_witness :
    ({ id := 1, user_id := 1, plan := none, stripe_customer_id := some "cus_1",
       stripe_subscription_id := some "sub_z", status := "canceled",
       trial_end := none, current_period_end := none, auto_renew := true,
       created_at := 0 : Subscription } ∈
      (dispatchEvent
        (.customerSubscriptionDeleted ⟨"sub_z", none, "canceled", none, none⟩) 0
        ⟨[{ id := 1, user_id := 1, plan := none, stripe_customer_id := some "cus_1",
            stripe_subscription_id := some "sub_z", status := "canceled",
            trial_end := none, current_period_end := none, auto_renew := true,
            created_at := 0 }], [], []⟩).subs) ∧
    ({ id := 1, user_id := 1, plan := none, stripe_customer_id := some "cus_1",
       stripe_subscription_id := some "sub_z", status := "canceled",
       trial_end := none, current_period_end := none, auto_renew := true,
       created_at := 0 : Subscription } ∈
      (dispatchEvent
        (.checkoutSessionCompleted ⟨some "cus_1", some "sub_z", some 1⟩
          ⟨"sub_z", "active", none, some 50⟩) 0
        ⟨[{ id := 1, user_id := 1, plan := none, stripe_customer_id := some "cus_1",
            stripe_subscription_id := some "sub_z", status := "canceled",
            trial_end := none, current_period_end := none, auto_renew := true,
            created_at := 0 }], [], []⟩).subs) :=
  ⟨c1_canceled_not_overwritten_except_sync.2.1
      ⟨"sub_z", none, "canceled", none, none⟩ 0
      ⟨[{ id := 1, user_id := 1, plan := none, stripe_customer_id := some "cus_1",
          stripe_subscription_id := some "sub_z", status := "canceled",
          trial_end := none, current_period_end := none, auto_renew := true,
          created_at := 0 }], [], []⟩
      { id := 1, user_id := 1, plan := none, stripe_customer_id := some "cus_1",
        stripe_subscription_id := some "sub_z", status := "canceled",
        trial_end := none, current_period_end := none, auto_renew := true,
        created_at := 0 }
      (by simp) rfl,
   c1_canceled_not_overwritten_except_sync.1
      ⟨some "cus_1", some "sub_z", some 1⟩ ⟨"sub_z", "active", none, some 50⟩ 0
      ⟨[{ id := 1, user_id := 1, plan := none, stripe_customer_id := some "cus_1",
          stripe_subscription_id := some "sub_z", status := "canceled",
          trial_end := none, current_period_end := none, auto_renew := true,
          created_at := 0 }], [], []⟩
      { id := 1, user_id := 1, plan := none, stripe_customer_id := some "cus_1",
        stripe_subscription_id := some "sub_z", status := "canceled",
        trial_end := none, current_period_end := none, auto_renew := true,
        created_at := 0 }
      (by decide) (by simp) rfl⟩

/-- Counterexample to C1 as stated: a `customer.subscription.updated`
event carrying status `active` for a canceled subscription's external
id flips the row back to `active`. -/
theorem c1_canceled_not_terminal_counterexample :
    ((stripe_webhook true "evt_9"
        (.customerSubscriptionUpdated ⟨"sub_z", none, "active", none, some 500⟩) 0
        ⟨[{ id := 1, user_id := 1, plan := none, stripe_customer_id := none,
            stripe_subscription_id := some "sub_z", status := "canceled",
            trial_end := none, current_period_end := none, auto_renew := true,
            created_at := 0 }], [], []⟩).state.subs).map Subscription.status =
      ["active"] ∧
    ([{ id := 1, user_id := 1, plan := none, stripe_customer_id := none,
        stripe_subscription_id := some "sub_z", status := "canceled",
        trial_end := none, current_period_end := none, auto_renew := true,
        created_at := 0 }] :
      List Subscription).map Subscription.status = ["canceled"] := by
  decide

/-! ### Idempotence of the webhook dispatch on the subscription ledger -/

/-- The row filter of the `checkout.session.completed` handler, as a
proposition on a row. -/
def checkoutMatches (obj : CheckoutSessionObj) (s : Subscription) : Prop :=
  obj.metadata_user_id = some s.user_id ∧
  s.stripe_customer_id = obj.customer ∧ s.status = "pending"

theorem reconcileCheckout_idem (ps : ProviderSub) (a : Subscription) :
    reconcileCheckout ps (reconcileCheckout ps a) = reconcileCheckout ps a := rfl

theorem dispatchEvent_events (ev : StripeEvent) (now : Nat) (st : St) :
    (dispatchEvent ev now st).events = st.events := by
  cases ev with
  | checkoutSessionCompleted obj ps =>
    show (handleCheckoutCompleted obj ps now st).events = st.events
    cases hm : obj.metadata_user_id with
    | none =>
      unfold handleCheckoutCompleted
      simp only [hm]
    | some uid =>
      cases hsess : obj.subscription with
      | none =>
        unfold handleCheckoutCompleted
        simp only [hm, hsess]
      | some sid =>
        cases hfind : st.subs.find? (fun v =>
            decide (v.user_id = uid ∧ v.stripe_customer_id = obj.customer ∧
                    v.status = "pending")) with
        | none =>
          unfold handleCheckoutCompleted
          simp only [hm, hsess, hfind]
        | some sub =>
          unfold handleCheckoutCompleted
          simp only [hm, hsess, hfind]
  | customerSubscriptionCreated obj =>
    show (handleSubCreated obj st).events = st.events
    cases h1 : st.subs.find? (fun s =>
        decide (s.stripe_subscription_id = some obj.id)) with
    | some a =>
      unfold handleSubCreated
      simp only [h1]
    | none =>
      cases h2 : st.subs.find? (fun s =>
          decide (s.stripe_customer_id = obj.customer ∧
                  s.status = "pending")) with
      | some a =>
        unfold handleSubCreated
        simp only [h1, h2]
      | none =>
        unfold handleSubCreated
        simp only [h1, h2]
  | customerSubscriptionUpdated obj => rfl
  | customerSubscriptionDeleted obj => rfl
  | unhandled ty => rfl

theorem logWebhookEvent_contains (eventId ty : String) (st : St) :
    ((logWebhookEvent eventId ty st).events.any
      (fun e => decide (e.1 = eventId))) = true := by
  unfold logWebhookEvent
  by_cases h : st.events.any (fun e => decide (e.1 = eventId)) = true
  · rw [if_pos h]
    exact h
  · rw [if_neg h]
    simp [List.any_append]

theorem logWebhookEvent_of_contains {eventId ty : String} {st : St}
    (h : st.events.any (fun e => decide (e.1 = eventId)) = true) :
    logWebhookEvent eventId ty st = st := by
  unfold logWebhookEvent
  rw [if_pos h]

theorem handleSubUpdated_subs_idem (obj : SubEventObj) (st : St) :
    (handleSubUpdated obj (handleSubUpdated obj st)).subs =
      (handleSubUpdated obj st).subs := by
  exact map_ite_idem
    (q := fun v : Subscription => v.stripe_subscription_id = some obj.id)
    (u := fun v => { v with status := obj.status,
                            trial_end := tsField obj.trial_end,
                            current_period_end := tsField obj.current_period_end })
    st.subs (fun v hv => hv) (fun v => rfl)

theorem handleSubDeleted_subs_idem (obj : SubEventObj) (st : St) :
    (handleSubDeleted obj (handleSubDeleted obj st)).subs =
      (handleSubDeleted obj st).subs := by
  exact map_ite_idem
    (q := fun v : Subscription => v.stripe_subscription_id = some obj.id)
    (u := fun v => { v with status := "canceled" })
    st.subs (fun v hv => hv) (fun v => rfl)

theorem handleSubCreated_subs_idem (obj : SubEventObj) (st : St)
    (hnd : (st.subs.map Subscription.id).Nodup) :
    (handleSubCreated obj (handleSubCreated obj st)).subs =
      (handleSubCreated obj st).subs := by
  cases h1 : st.subs.find? (fun s =>
      decide (s.stripe_subscription_id = some obj.id)) with
  | some a =>
    have ha : a ∈ st.subs := List.mem_of_find?_eq_some h1
    set b : Subscription :=
      { a with stripe_subscription_id := some obj.id,
               status := obj.status,
               trial_end := tsField obj.trial_end,
               current_period_end := tsField obj.current_period_end } with hb
    have hres1 : handleSubCreated obj st = { st with subs := saveSub st.subs b } := by
      unfold handleSubCreated
      simp only [h1]
    have hfind2 : (saveSub st.subs b).find?
        (fun s => decide (s.stripe_subscription_id = some obj.id)) = some b :=
      find?_dbSave_of_pred hnd h1 (by rw [hb]) (by rw [hb]; simp)
    have hnd1 : ((saveSub st.subs b).map Subscription.id).Nodup := by
      unfold saveSub
      rw [dbSave_map_key]
      exact hnd
    have hmem1 : b ∈ saveSub st.subs b := mem_dbSave_self ha (by rw [hb])
    have hres2 : handleSubCreated obj (handleSubCreated obj st) =
        { st with subs := saveSub (saveSub st.subs b) b } := by
      rw [hres1]
      unfold handleSubCreated
      simp only [hfind2]
    rw [hres2, hres1]
    exact dbSave_eq_self hnd1 hmem1
  | none =>
    cases h2 : st.subs.find? (fun s =>
        decide (s.stripe_customer_id = obj.customer ∧
                s.status = "pending")) with
    | none =>
      have hres1 : handleSubCreated obj st = st := by
        unfold handleSubCreated
        simp only [h1, h2]
      rw [hres1, hres1]
    | some a =>
      have ha : a ∈ st.subs := List.mem_of_find?_eq_some h2
      set b : Subscription :=
        { a with stripe_subscription_id := some obj.id,
                 status := obj.status,
                 trial_end := tsField obj.trial_end,
                 current_period_end := tsField obj.current_period_end } with hb
      have hres1 : handleSubCreated obj st = { st with subs := saveSub st.subs b } := by
        unfold handleSubCreated
        simp only [h1, h2]
      have hfind2 : (saveSub st.subs b).find?
          (fun s => decide (s.stripe_subscription_id = some obj.id)) = some b :=
        find?_dbSave_of_none h1 ha (by rw [hb]) (by rw [hb]; simp)
      have hnd1 : ((saveSub st.subs b).map Subscription.id).Nodup := by
        unfold saveSub
        rw [dbSave_map_key]
        exact hnd
      have hmem1 : b ∈ saveSub st.subs b := mem_dbSave_self ha (by rw [hb])
      have hres2 : handleSubCreated obj (handleSubCreated obj st) =
          { st with subs := saveSub (saveSub st.subs b) b } := by
        rw [hres1]
        unfold handleSubCreated
        simp only [hfind2]
      rw [hres2, hres1]
      exact dbSave_eq_self hnd1 hmem1

theorem handleCheckoutCompleted_subs_idem (obj : CheckoutSessionObj)
    (ps : ProviderSub) (now1 now2 : Nat) (st : St)
    (hnd : (st.subs.map Subscription.id).Nodup)
    (huniq : ∀ v ∈ st.subs, ∀ w ∈ st.subs,
       checkoutMatches obj v → checkoutMatches obj w → v = w) :
    (handleCheckoutCompleted obj ps now2
        (handleCheckoutCompleted obj ps now1 st)).subs =
      (handleCheckoutCompleted obj ps now1 st).subs := by
  cases hm : obj.metadata_user_id with
  | none =>
    have hres : ∀ (n : Nat) (s' : St), handleCheckoutCompleted obj ps n s' = s' := by
      intro n s'
      unfold handleCheckoutCompleted
      simp only [hm]
    rw [hres now2 (handleCheckoutCompleted obj ps now1 st)]
  | some uid =>
    cases hsess : obj.subscription with
    | none =>
      have hres : ∀ (n : Nat) (s' : St), handleCheckoutCompleted obj ps n s' = s' := by
        intro n s'
        unfold handleCheckoutCompleted
        simp only [hm, hsess]
      rw [hres now2 (handleCheckoutCompleted obj ps now1 st)]
    | some sid =>
      cases hfind : st.subs.find? (fun v =>
          decide (v.user_id = uid ∧ v.stripe_customer_id = obj.customer ∧
                  v.status = "pending")) with
      | none =>
        have hres1 : handleCheckoutCompleted obj ps now1 st = st := by
          unfold handleCheckoutCompleted
          simp only [hm, hsess, hfind]
        have hres2 : handleCheckoutCompleted obj ps now2 st = st := by
          unfold handleCheckoutCompleted
          simp only [hm, hsess, hfind]
        rw [hres1, hres2]
      | some a =>
        have ha : a ∈ st.subs := List.mem_of_find?_eq_some hfind
        have hPa : a.user_id = uid ∧ a.stripe_customer_id = obj.customer ∧
            a.status = "pending" := by simpa using List.find?_some hfind
        set b : Subscription := reconcileCheckout ps a with hb
        have hres1 : handleCheckoutCompleted obj ps now1 st =
            { st with
                subs := saveSub st.subs b,
                users := process_referral_benefits st.users b.user_id b now1 } := by
          unfold handleCheckoutCompleted
          simp only [hm, hsess, hfind]
        have hnd1 : ((saveSub st.subs b).map Subscription.id).Nodup := by
          unfold saveSub
          rw [dbSave_map_key]
          exact hnd
        by_cases hps : ps.status = "pending"
        · have hPb : (fun v : Subscription =>
              decide (v.user_id = uid ∧ v.stripe_customer_id = obj.customer ∧
                      v.status = "pending")) b = true := by
            rw [hb]
            simp [reconcileCheckout, hPa.1, hPa.2.1, hps]
          have hfind2 : (saveSub st.subs b).find? (fun v =>
              decide (v.user_id = uid ∧ v.stripe_customer_id = obj.customer ∧
                      v.status = "pending")) = some b :=
            find?_dbSave_of_pred hnd hfind (by rw [hb]; rfl) hPb
          have hmem1 : b ∈ saveSub st.subs b := mem_dbSave_self ha (by rw [hb]; rfl)
          have hres2 : handleCheckoutCompleted obj ps now2
              (handleCheckoutCompleted obj ps now1 st) =
              { st with
                  subs := saveSub (saveSub st.subs b) b,
                  users := process_referral_benefits
                    (process_referral_benefits st.users b.user_id b now1)
                    b.user_id b now2 } := by
            have hbb : reconcileCheckout ps b = b := by
              rw [hb]
              exact reconcileCheckout_idem ps a
            rw [hres1]
            unfold handleCheckoutCompleted
            simp only [hm, hsess, hfind2, hbb]
          rw [hres2, hres1]
          exact dbSave_eq_self hnd1 hmem1
        · have hPb : (fun v : Subscription =>
              decide (v.user_id = uid ∧ v.stripe_customer_id = obj.customer ∧
                      v.status = "pending")) b = false := by
            rw [hb]
            simp [reconcileCheckout, hps]
          have huniq' : ∀ v ∈ st.subs,
              (fun v : Subscription =>
                decide (v.user_id = uid ∧ v.stripe_customer_id = obj.customer ∧
                        v.status = "pending")) v = true → v = a := by
            intro v hv hpv
            have hpv' : v.user_id = uid ∧ v.stripe_customer_id = obj.customer ∧
                v.status = "pending" := by simpa using hpv
            exact huniq v hv a ha
              ⟨by rw [hm, hpv'.1], hpv'.2.1, hpv'.2.2⟩
              ⟨by rw [hm, hPa.1], hPa.2.1, hPa.2.2⟩
          have hfind2 : (saveSub st.subs b).find? (fun v =>
              decide (v.user_id = uid ∧ v.stripe_customer_id = obj.customer ∧
                      v.status = "pending")) = none :=
            find?_dbSave_none hfind huniq' (by rw [hb]; rfl) hPb
          have hres2 : handleCheckoutCompleted obj ps now2
              (handleCheckoutCompleted obj ps now1 st) =
              handleCheckoutCompleted obj ps now1 st := by
            rw [hres1]
            unfold handleCheckoutCompleted
            simp only [hm, hsess, hfind2]
          rw [hres2]

theorem dispatchEvent_subs_idem (ev : StripeEvent) (now1 now2 : Nat) (st : St)
    (hnd : (st.subs.map Subscription.id).Nodup)
    (huniq : ∀ (obj : CheckoutSessionObj) (ps : ProviderSub),
       ev = .checkoutSessionCompleted obj ps →
       ∀ v ∈ st.subs, ∀ w ∈ st.subs,
         checkoutMatches obj v → checkoutMatches obj w → v = w) :
    (dispatchEvent ev now2 (dispatchEvent ev now1 st)).subs =
      (dispatchEvent ev now1 st).subs := by
  cases ev with
  | checkoutSessionCompleted obj ps =>
    exact handleCheckoutCompleted_subs_idem obj ps now1 now2 st hnd
      (huniq obj ps rfl)
  | customerSubscriptionCreated obj => exact handleSubCreated_subs_idem obj st hnd
  | customerSubscriptionUpdated obj => exact handleSubUpdated_subs_idem obj st
  | customerSubscriptionDeleted obj => exact handleSubDeleted_subs_idem obj st
  | unhandled ty => rfl

/-- C2 (amended): for a ledger whose row ids are unique (the primary
key) and in which at most one pending row matches a checkout event's
(user, customer) pair, delivering the same webhook event twice — with
the identical provider response — leaves the subscription ledger in the
same state as delivering it once.  Without the at-most-one-match
condition the claim fails: duplicate pending rows make a redelivered
checkout-completed event reconcile a second row (see the
counterexample). -/
theorem c2_webhook_idempotent_on_ledger (eventId : String) (ev : StripeEvent)
    (now1 now2 : Nat) (st : St)
    (hnd : (st.subs.map Subscription.id).Nodup)
    (huniq : ∀ (obj : CheckoutSessionObj) (ps : ProviderSub),
       ev = .checkoutSessionCompleted obj ps →
       ∀ v ∈ st.subs, ∀ w ∈ st.subs,
         checkoutMatches obj v → checkoutMatches obj w → v = w) :
    ((stripe_webhook true eventId ev now2
        (stripe_webhook true eventId ev now1 st).state).state).subs =
      ((stripe_webhook true eventId ev now1 st).state).subs := by
  rw [stripe_webhook_true, stripe_webhook_true]
  have hlog2 : logWebhookEvent eventId ev.typeName
      (dispatchEvent ev now1 (logWebhookEvent eventId ev.typeName st)) =
      dispatchEvent ev now1 (logWebhookEvent eventId ev.typeName st) := by
    apply logWebhookEvent_of_contains
    rw [dispatchEvent_events]
    exact logWebhookEvent_contains eventId ev.typeName st
  simp only [hlog2]
  apply dispatchEvent_subs_idem
  · rw [logWebhookEvent_subs]
    exact hnd
  · intro obj ps hev v hv w hw
    rw [logWebhookEvent_subs] at hv hw
    exact huniq obj ps hev v hv w hw

/-- Witness for C2 on a concrete ledger with a single pending row:
redelivering the checkout-completed event leaves the ledger where the
first delivery put it. -/
theorem c2_webhook_idempotent_on_ledger_witness :
    ((stripe_webhook true "evt_1"
        (.checkoutSessionCompleted ⟨some "cus_1", some "sub_x", some 1⟩
          ⟨"sub_x", "active", none, some 1000⟩) 7
        (stripe_webhook true "evt_1"
          (.checkoutSessionCompleted ⟨some "cus_1", some "sub_x", some 1⟩
            ⟨"sub_x", "active", none, some 1000⟩) 7
          ⟨[{ id := 1, user_id := 1, plan := none,
              stripe_customer_id := some "cus_1",
              stripe_subscription_id := none, status := "pending",
              trial_end := none, current_period_end := none,
              auto_renew := true, created_at := 0 }], [], []⟩).state).state).subs =
      ((stripe_webhook true "evt_1"
        (.checkoutSessionCompleted ⟨some "cus_1", some "sub_x", some 1⟩
          ⟨"sub_x", "active", none, some 1000⟩) 7
        ⟨[{ id := 1, user_id := 1, plan := none,
            stripe_customer_id := some "cus_1",
            stripe_subscription_id := none, status := "pending",
            trial_end := none, current_period_end := none,
            auto_renew := true, created_at := 0 }], [], []⟩).state).subs :=
  c2_webhook_idempotent_on_ledger "evt_1"
    (.checkoutSessionCompleted ⟨some "cus_1", some "sub_x", some 1⟩
      ⟨"sub_x", "active", none, some 1000⟩) 7 7
    ⟨[{ id := 1, user_id := 1, plan := none,
        stripe_customer_id := some "cus_1",
        stripe_subscription_id := none, status := "pending",
        trial_end := none, current_period_end := none,
        auto_renew := true, created_at := 0 }], [], []⟩
    (by decide)
    (by
      intro obj ps hev v hv w hw hmv hmw
      injection hev with h1 h2
      subst h1
      have hv' : v =
          { id := 1, user_id := 1, plan := none,
            stripe_customer_id := some "cus_1",
            stripe_subscription_id := none, status := "pending",
            trial_end := none, current_period_end := none,
            auto_renew := true, created_at := 0 } := by simpa using hv
      have hw' : w =
          { id := 1, user_id := 1, plan := none,
            stripe_customer_id := some "cus_1",
            stripe_subscription_id := none, status := "pending",
            trial_end := none, current_period_end := none,
            auto_renew := true, created_at := 0 } := by simpa using hw
      rw [hv', hw'])

/-- Counterexample to C2 as stated: with two duplicate pending rows for
the same (user, customer), delivering the same checkout-completed event
twice reconciles both rows, so the ledger differs from a single
delivery. -/
theorem c2_webhook_idempotent_counterexample :
    ((stripe_webhook true "evt_1"
        (.checkoutSessionCompleted ⟨some "cus_1", some "sub_x", some 1⟩
          ⟨"sub_x", "active", none, some 1000⟩) 0
        (stripe_webhook true "evt_1"
          (.checkoutSessionCompleted ⟨some "cus_1", some "sub_x", some 1⟩
            ⟨"sub_x", "active", none, some 1000⟩) 0
          ⟨[{ id := 1, user_id := 1, plan := none,
              stripe_customer_id := some "cus_1",
              stripe_subscription_id := none, status := "pending",
              trial_end := none, current_period_end := none,
              auto_renew := true, created_at := 0 },
            { id := 2, user_id := 1, plan := none,
              stripe_customer_id := some "cus_1",
              stripe_subscription_id := none, status := "pending",
              trial_end := none, current_period_end := none,
              auto_renew := true, created_at := 0 }], [], []⟩).state).state).subs ≠
      ((stripe_webhook true "evt_1"
        (.checkoutSessionCompleted ⟨some "cus_1", some "sub_x", some 1⟩
          ⟨"sub_x", "active", none, some 1000⟩) 0
        ⟨[{ id := 1, user_id := 1, plan := none,
            stripe_customer_id := some "cus_1",
            stripe_subscription_id := none, status := "pending",
            trial_end := none, current_period_end := none,
            auto_renew := true, created_at := 0 },
          { id := 2, user_id := 1, plan := none,
            stripe_customer_id := some "cus_1",
            stripe_subscription_id := none, status := "pending",
            trial_end := none, current_period_end := none,
            auto_renew := true, created_at := 0 }], [], []⟩).state).subs := by
  decide

end Jocely
